import Mathlib

/-!
Verification of `pdf2text.py` (bpolania/PDF2Text): a shallow embedding of
the `PDFConverter` class (extraction backends, the auto-fallback strategy,
batch conversion) and of the exit-code logic of the `main` CLI entry point,
together with proofs of the specified properties.

Python strings are modelled as `List Char` (`Str`), with executable
versions of the string operations the program uses (`str.lower`,
`str.strip`, `'\n'.join`, slicing); Python's whitespace set is modelled by
`Char.isWhitespace`.

The two PDF-extraction libraries (PyPDF2 and pdfplumber) are external
dependencies treated as opaque oracles: for a given PDF each either raises
(modelled as `Except.error` carrying the exception text) or yields the
list of per-page extraction results in page order.  `PyPDF2`'s
`page.extract_text()` yields a string per page; `pdfplumber`'s
`page.extract_text()` may yield `None`, modelled as `Option Str`.
-/

deriving instance DecidableEq for Except

namespace PDF2Text

/-- A Python string, as a list of characters. -/
abbrev Str := List Char

/-- `s.lower()`. -/
def lower (s : Str) : Str := s.map Char.toLower

/-- `s.strip()`: remove leading and trailing whitespace. -/
def strip (s : Str) : Str :=
  ((s.dropWhile Char.isWhitespace).reverse.dropWhile Char.isWhitespace).reverse

/-- `'\n'.join(parts)`. -/
def joinNL (parts : List Str) : Str := List.intercalate "\n".data parts

/-- The fields of a `pathlib.Path` value that `pdf2text.py` reads:
`str(path)` (used as the report key and in error messages), `path.stem`,
`path.suffix`, and the results of `path.exists()`, `path.is_file()` and
`path.is_dir()`. -/
structure PPath where
  str : Str
  stem : Str
  suffix : Str
  exists' : Bool
  isFile : Bool
  isDir : Bool
deriving DecidableEq

/-- The behaviour of the two backend libraries on one given PDF file:
each call either raises (`Except.error` carrying `str(e)`) or returns the
per-page extraction results in page order. -/
structure PdfOracle where
  pypdf2Pages : Except Str (List Str)
  plumberPages : Except Str (List (Option Str))
deriving DecidableEq

/-- The exceptions `pdf2text.py` raises: `FileNotFoundError` and
`ValueError` from the precondition checks in `convert`, and the generic
`Exception("<backend> extraction failed: ...")` re-raised by the two
extraction methods. -/
inductive PdfError where
  | fileNotFound (msg : Str)
  | valueError (msg : Str)
  | extractionFailed (msg : Str)
deriving DecidableEq

/-- `str(e)` of a raised exception: its message. -/
def PdfError.msg : PdfError → Str
  | .fileNotFound m => m
  | .valueError m => m
  | .extractionFailed m => m

/-- `PDFConverter.extract_with_pypdf2`: append `page.extract_text()` for
every page (empty pages included), join with a newline; any exception is
re-raised as `Exception("PyPDF2 extraction failed: " + str(e))`. -/
def extract_with_pypdf2 (o : PdfOracle) : Except PdfError Str :=
  match o.pypdf2Pages with
  | .ok pages => .ok (joinNL pages)
  | .error e => .error (.extractionFailed ("PyPDF2 extraction failed: ".data ++ e))

/-- Python truthiness of `page.extract_text()`'s result in
`extract_with_pdfplumber`: `None` and the empty string are falsy. -/
def truthy : Option Str → Bool
  | none => false
  | some t => t ≠ []

/-- `PDFConverter.extract_with_pdfplumber`: append `page.extract_text()`
only when truthy (`if page_text:`), join with a newline; any exception is
re-raised as `Exception("pdfplumber extraction failed: " + str(e))`. -/
def extract_with_pdfplumber (o : PdfOracle) : Except PdfError Str :=
  match o.plumberPages with
  | .ok pages =>
      .ok (joinNL (pages.filterMap (fun pt => if truthy pt then pt else none)))
  | .error e => .error (.extractionFailed ("pdfplumber extraction failed: ".data ++ e))

/-- `PDFConverter.convert`.  Precondition checks first (`exists()`, then
the case-insensitive `.pdf` suffix), then dispatch on `self.method`:
`'pypdf2'` and `'pdfplumber'` call the matching backend directly; any
other method string takes the `else` branch (auto): try pdfplumber, on a
blank result (`not text.strip()`) call PyPDF2 inside the same `try`, and
the bare `except:` answers any exception raised in the `try` body by
calling PyPDF2 (again, if PyPDF2 itself was what raised). -/
def convert (method : Str) (p : PPath) (o : PdfOracle) : Except PdfError Str :=
  if !p.exists' then
    .error (.fileNotFound ("PDF file not found: ".data ++ p.str))
  else if !(lower p.suffix = ".pdf".data) then
    .error (.valueError ("File must be a PDF: ".data ++ p.str))
  else if method = "pypdf2".data then
    extract_with_pypdf2 o
  else if method = "pdfplumber".data then
    extract_with_pdfplumber o
  else
    match extract_with_pdfplumber o with
    | .ok text =>
        if strip text = [] then
          match extract_with_pypdf2 o with
          | .ok text2 => .ok text2
          | .error _ => extract_with_pypdf2 o
        else .ok text
    | .error _ => extract_with_pypdf2 o

/-- `PDFConverter.convert`, instrumented: the result of `convert`, paired
with the number of calls made to `extract_with_pypdf2` and to
`extract_with_pdfplumber` respectively. -/
def convertCount (method : Str) (p : PPath) (o : PdfOracle) :
    Except PdfError Str × Nat × Nat :=
  if !p.exists' then
    (.error (.fileNotFound ("PDF file not found: ".data ++ p.str)), 0, 0)
  else if !(lower p.suffix = ".pdf".data) then
    (.error (.valueError ("File must be a PDF: ".data ++ p.str)), 0, 0)
  else if method = "pypdf2".data then
    (extract_with_pypdf2 o, 1, 0)
  else if method = "pdfplumber".data then
    (extract_with_pdfplumber o, 0, 1)
  else
    match extract_with_pdfplumber o with
    | .ok text =>
        if strip text = [] then
          match extract_with_pypdf2 o with
          | .ok text2 => (.ok text2, 1, 1)
          | .error _ => (extract_with_pypdf2 o, 2, 1)
        else (.ok text, 0, 1)
    | .error _ => (extract_with_pypdf2 o, 1, 1)

/-- One entry of the `results` dict built by `batch_convert`:
`{'status': 'success', 'output': ...}` (output directory given),
`{'status': 'success', 'text': ...}` (console preview), or
`{'status': 'error', 'error': ...}`. -/
inductive BatchEntry where
  | successOutput (output : Str)
  | successText (text : Str)
  | error (msg : Str)
deriving DecidableEq

/-- `r['status'] == 'success'` for a report entry. -/
def BatchEntry.isSuccess : BatchEntry → Bool
  | .error _ => false
  | _ => true

/-- `r['status'] == 'error'` for a report entry. -/
def BatchEntry.isError : BatchEntry → Bool
  | .error _ => true
  | _ => false

/-- Python-dict assignment `d[k] = v` on an insertion-ordered association
list: replace in place when the key is present, append otherwise. -/
def dictInsert (k : Str) (v : BatchEntry) :
    List (Str × BatchEntry) → List (Str × BatchEntry)
  | [] => [(k, v)]
  | (k', v') :: rest =>
      if k' = k then (k, v) :: rest else (k', v') :: dictInsert k v rest

/-- The body of `batch_convert`'s loop for one `pdf_path`: convert, then
record success (writing `<output_dir>/<stem>.txt` when an output
directory is given, otherwise a preview truncated past 200 characters) or
record the error message.  The state is the `results` dict paired with
the ordered log of `write_text` calls (output path, contents). -/
def batchStep (method : Str) (oracle : PPath → PdfOracle) (output_dir : Option Str)
    (acc : List (Str × BatchEntry) × List (Str × Str)) (pdf_path : PPath) :
    List (Str × BatchEntry) × List (Str × Str) :=
  match convert method pdf_path (oracle pdf_path) with
  | .ok text =>
      match output_dir with
      | some d =>
          let output_path := d ++ "/".data ++ pdf_path.stem ++ ".txt".data
          (dictInsert pdf_path.str (.successOutput output_path) acc.1,
           acc.2 ++ [(output_path, text)])
      | none =>
          let preview :=
            if text.length > 200 then text.take 200 ++ "...".data else text
          (dictInsert pdf_path.str (.successText preview) acc.1, acc.2)
  | .error e =>
      (dictInsert pdf_path.str (.error e.msg) acc.1, acc.2)

/-- `PDFConverter.batch_convert`: iterate over `pdf_paths` in order,
building the `results` dict; a failing conversion records an error entry
and the loop continues.  Also returns the ordered log of output-file
writes. -/
def batch_convert (method : Str) (oracle : PPath → PdfOracle)
    (pdf_paths : List PPath) (output_dir : Option Str) :
    List (Str × BatchEntry) × List (Str × Str) :=
  pdf_paths.foldl (batchStep method oracle output_dir) ([], [])

/-- The contents a file holds after a sequence of `write_text` calls:
the last write to that path wins (files are overwritten if present). -/
def finalContent (writes : List (Str × Str)) (p : Str) : Option Str :=
  ((writes.filter (fun w => w.1 = p)).getLast?).map Prod.snd

/-- `success_count` as computed in `main`: entries whose `status` is
`'success'`. -/
def success_count (results : List (Str × BatchEntry)) : Nat :=
  (results.filter (fun r => r.2.isSuccess)).length

/-- `error_count` as computed in `main`: entries whose `status` is
`'error'`. -/
def error_count (results : List (Str × BatchEntry)) : Nat :=
  (results.filter (fun r => r.2.isError)).length

/-- The `main` CLI entry point, reduced to its exit code and batch
report, including the argument decoding declared in its decorators:
`click.Path(exists=True)` rejects a nonexistent `input_path` with a
usage error before the body of `main` runs, and click terminates the
process with exit code 2 on a usage error.  `pdfFiles` stands for the
result of `input_path.glob(pattern)`.  Single-file mode exits 1 on a
conversion error and 0 on success; directory mode exits 0 whether or
not PDFs are found and regardless of per-file failures; an existing
path that is neither a file nor a directory reaches the `else` branch
and exits 1. -/
def main_run (input_path : PPath) (output : Option Str) (method : Str)
    (pdfFiles : List PPath) (oracle : PPath → PdfOracle) :
    Nat × List (Str × BatchEntry) :=
  if !input_path.exists' then (2, [])
  else if input_path.isFile then
    match convert method input_path (oracle input_path) with
    | .ok _ => (0, [])
    | .error _ => (1, [])
  else if input_path.isDir then
    if pdfFiles = [] then (0, [])
    else (0, (batch_convert method oracle pdfFiles output).1)
  else (1, [])

/-! ### Concrete fixtures used by the witness theorems -/

/-- An existing `.pdf` file. -/
def pW : PPath := ⟨"doc.pdf".data, "doc".data, ".pdf".data, true, true, false⟩

/-- An existing file whose suffix is `.txt`. -/
def pTxt : PPath := ⟨"note.txt".data, "note".data, ".txt".data, true, true, false⟩

/-- A non-existent path (with a non-`.pdf` suffix, to exhibit check
order). -/
def pMissing : PPath := ⟨"miss.txt".data, "miss".data, ".txt".data, false, false, false⟩

/-- pdfplumber raises, PyPDF2 succeeds. -/
def oBerr : PdfOracle := ⟨.ok ["hello".data], .error "bad".data⟩

/-- pdfplumber succeeds with all-whitespace text, PyPDF2 succeeds. -/
def oBlank : PdfOracle := ⟨.ok ["world".data], .ok [some "  ".data]⟩

/-- pdfplumber succeeds with no extractable pages, PyPDF2 raises. -/
def oABoom : PdfOracle := ⟨.error "boom".data, .ok []⟩

/-- Both backends raise. -/
def oBothErr : PdfOracle := ⟨.error "boom".data, .error "bad".data⟩

/-- Both backends succeed with several pages, some blank/undefined. -/
def oGood : PdfOracle :=
  ⟨.ok ["pg1".data, "".data, "pg2".data],
   .ok [some "x".data, none, some "".data, some "y".data]⟩

/-! ### Theorems -/

/-- C1: on a path satisfying the preconditions, if pdfplumber raises in
auto mode then `convert(path, 'auto')` equals `convert(path, 'pypdf2')`;
in particular when PyPDF2 also raises, the surfaced failure is PyPDF2's,
not pdfplumber's. -/
theorem auto_eq_pypdf2_of_plumber_error (p : PPath) (o : PdfOracle) (e : Str)
    (hex : p.exists' = true) (hsuf : lower p.suffix = ".pdf".data)
    (hB : o.plumberPages = .error e) :
    convert "auto".data p o = convert "pypdf2".data p o ∧
    ∀ ea, o.pypdf2Pages = .error ea →
      convert "auto".data p o =
        .error (.extractionFailed ("PyPDF2 extraction failed: ".data ++ ea)) := by
  constructor
  · simp [convert, hex, hsuf, hB, extract_with_pdfplumber]
  · intro ea hA
    simp [convert, hex, hsuf, hB, hA, extract_with_pdfplumber, extract_with_pypdf2]

/-- Witness for C1 at concrete inputs: pdfplumber raising with PyPDF2
succeeding, and both backends raising. -/
theorem auto_eq_pypdf2_of_plumber_error_witness :
    (convert "auto".data pW oBerr = convert "pypdf2".data pW oBerr) ∧
    (convert "auto".data pW oBothErr =
      .error (.extractionFailed ("PyPDF2 extraction failed: ".data ++ "boom".data))) :=
  ⟨(auto_eq_pypdf2_of_plumber_error pW oBerr "bad".data rfl (by decide) rfl).1,
   (auto_eq_pypdf2_of_plumber_error pW oBothErr "bad".data rfl (by decide) rfl).2
     "boom".data rfl⟩

/-- C2: on a path satisfying the preconditions, if pdfplumber succeeds in
auto mode but its text is empty or all-whitespace, `convert(path, 'auto')`
equals `convert(path, 'pypdf2')` (PyPDF2's result, success or failure),
and pdfplumber is invoked exactly once (never retried). -/
theorem auto_eq_pypdf2_of_blank_text (p : PPath) (o : PdfOracle) (txt : Str)
    (hex : p.exists' = true) (hsuf : lower p.suffix = ".pdf".data)
    (hB : extract_with_pdfplumber o = .ok txt) (hblank : strip txt = []) :
    convert "auto".data p o = convert "pypdf2".data p o ∧
    (convertCount "auto".data p o).2.2 = 1 := by
  cases hA : extract_with_pypdf2 o with
  | ok t2 =>
      constructor
      · simp [convert, hex, hsuf, hB, hblank, hA]
      · simp [convertCount, hex, hsuf, hB, hblank, hA]
  | error e2 =>
      constructor
      · simp [convert, hex, hsuf, hB, hblank, hA]
      · simp [convertCount, hex, hsuf, hB, hblank, hA]

/-- Witness for C2 at concrete inputs: pdfplumber returning whitespace
with PyPDF2 succeeding, and pdfplumber with zero extractable pages with
PyPDF2 raising. -/
theorem auto_eq_pypdf2_of_blank_text_witness :
    (convert "auto".data pW oBlank = convert "pypdf2".data pW oBlank ∧
      (convertCount "auto".data pW oBlank).2.2 = 1) ∧
    (convert "auto".data pW oABoom = convert "pypdf2".data pW oABoom ∧
      (convertCount "auto".data pW oABoom).2.2 = 1) :=
  ⟨auto_eq_pypdf2_of_blank_text pW oBlank "  ".data rfl (by decide) (by decide)
      (by decide),
   auto_eq_pypdf2_of_blank_text pW oABoom [] rfl (by decide) (by decide) (by decide)⟩

/-- C3 as stated is false: on a valid path where pdfplumber succeeds with
blank text and PyPDF2 raises, the bare `except:` catches PyPDF2's
exception and calls `extract_with_pypdf2` a second time, so PyPDF2 is
invoked twice in a single auto-mode `convert` call. -/
theorem auto_single_invocation_cex :
    (convertCount "auto".data pW oABoom).2.1 = 2 ∧
    ¬ ((convertCount "auto".data pW oABoom).2.1 ≤ 1) := by decide

/-- C3 amended: in an auto-mode `convert` call on a path satisfying the
preconditions, pdfplumber is invoked exactly once, and PyPDF2 at most
twice; PyPDF2 reaches two invocations only when pdfplumber succeeded with
blank text and PyPDF2 itself raised (the bare `except:` then retries it);
otherwise each backend is invoked at most once. -/
theorem auto_invocation_counts (p : PPath) (o : PdfOracle)
    (hex : p.exists' = true) (hsuf : lower p.suffix = ".pdf".data) :
    (convertCount "auto".data p o).2.2 = 1 ∧
    (convertCount "auto".data p o).2.1 ≤ 2 ∧
    ((convertCount "auto".data p o).2.1 = 2 →
      ∃ txt, extract_with_pdfplumber o = .ok txt ∧ strip txt = [] ∧
        ∃ e, o.pypdf2Pages = .error e) := by
  cases hB : extract_with_pdfplumber o with
  | ok txt =>
      by_cases hblank : strip txt = []
      · cases hA : o.pypdf2Pages with
        | ok pages =>
            simp [convertCount, hex, hsuf, hB, hblank, extract_with_pypdf2, hA]
        | error e =>
            exact ⟨by simp [convertCount, hex, hsuf, hB, hblank, extract_with_pypdf2, hA],
                   by simp [convertCount, hex, hsuf, hB, hblank, extract_with_pypdf2, hA],
                   fun _ => ⟨txt, rfl, hblank, e, rfl⟩⟩
      · simp [convertCount, hex, hsuf, hB, hblank]
  | error e => simp [convertCount, hex, hsuf, hB]

/-- Witness for the amended C3 at a concrete input on which PyPDF2 is
invoked twice. -/
theorem auto_invocation_counts_witness :
    (convertCount "auto".data pW oABoom).2.2 = 1 ∧
    (convertCount "auto".data pW oABoom).2.1 ≤ 2 ∧
    ((convertCount "auto".data pW oABoom).2.1 = 2 →
      ∃ txt, extract_with_pdfplumber oABoom = .ok txt ∧ strip txt = [] ∧
        ∃ e, oABoom.pypdf2Pages = .error e) :=
  auto_invocation_counts pW oABoom rfl (by decide)

/-- C4: for every method, a non-existent path fails with
`FileNotFoundError` (checked first, whatever the suffix), and an existing
path without a case-insensitive `.pdf` suffix fails with `ValueError`;
in both cases neither backend is invoked. -/
theorem precondition_failures_invoke_no_backend (method : Str) (p : PPath)
    (o : PdfOracle) :
    (p.exists' = false →
      convertCount method p o =
        (.error (.fileNotFound ("PDF file not found: ".data ++ p.str)), 0, 0)) ∧
    (p.exists' = true → ¬ lower p.suffix = ".pdf".data →
      convertCount method p o =
        (.error (.valueError ("File must be a PDF: ".data ++ p.str)), 0, 0)) := by
  constructor
  · intro h; simp [convertCount, h]
  · intro h1 h2; simp [convertCount, h1, h2]

/-- Witness for C4 at concrete inputs: a missing `.txt` path (not-found
reported, showing check order) and an existing `.txt` path (wrong
extension reported); zero backend invocations in both cases. -/
theorem precondition_failures_invoke_no_backend_witness :
    convertCount "auto".data pMissing oGood =
      (.error (.fileNotFound ("PDF file not found: ".data ++ pMissing.str)), 0, 0) ∧
    convertCount "auto".data pTxt oGood =
      (.error (.valueError ("File must be a PDF: ".data ++ pTxt.str)), 0, 0) :=
  ⟨(precondition_failures_invoke_no_backend "auto".data pMissing oGood).1 rfl,
   (precondition_failures_invoke_no_backend "auto".data pTxt oGood).2 rfl (by decide)⟩

/-- C5: on a path satisfying the preconditions, `convert` with method
`'pypdf2'` returns PyPDF2's per-page texts joined by a single newline, in
page order with blank pages included; a backend exception is re-raised as
a failure naming PyPDF2. -/
theorem convert_pypdf2_spec (p : PPath) (o : PdfOracle)
    (hex : p.exists' = true) (hsuf : lower p.suffix = ".pdf".data) :
    (∀ pages, o.pypdf2Pages = .ok pages →
      convert "pypdf2".data p o = .ok (joinNL pages)) ∧
    (∀ e, o.pypdf2Pages = .error e →
      convert "pypdf2".data p o =
        .error (.extractionFailed ("PyPDF2 extraction failed: ".data ++ e))) := by
  constructor
  · intro pages hA; simp [convert, hex, hsuf, extract_with_pypdf2, hA]
  · intro e hA; simp [convert, hex, hsuf, extract_with_pypdf2, hA]

/-- Witness for C5 at concrete inputs: three pages (one blank, kept as an
empty segment), and a raising backend. -/
theorem convert_pypdf2_spec_witness :
    convert "pypdf2".data pW oGood =
      .ok (joinNL ["pg1".data, "".data, "pg2".data]) ∧
    convert "pypdf2".data pW oBothErr =
      .error (.extractionFailed ("PyPDF2 extraction failed: ".data ++ "boom".data)) :=
  ⟨(convert_pypdf2_spec pW oGood rfl (by decide)).1 _ rfl,
   (convert_pypdf2_spec pW oBothErr rfl (by decide)).2 "boom".data rfl⟩

/-- pdfplumber's per-page filter from the source (`if page_text:`) keeps
exactly the pages that are defined and non-empty. -/
theorem truthy_filterMap (pages : List (Option Str)) :
    pages.filterMap (fun pt => if truthy pt then pt else none) =
      (pages.filterMap id).filter (fun t => t ≠ []) := by
  induction pages with
  | nil => rfl
  | cons hd tl ih =>
      simp only [truthy, ne_eq, decide_not] at ih ⊢
      cases hd with
      | none => simpa using ih
      | some t =>
          by_cases ht : t = [] <;> simp [ht, ih]

/-- C6: on a path satisfying the preconditions, `convert` with method
`'pdfplumber'` returns pdfplumber's per-page texts joined by newline with
every undefined (`None`) or empty page excluded; a backend exception is
re-raised as a failure naming pdfplumber. -/
theorem convert_pdfplumber_spec (p : PPath) (o : PdfOracle)
    (hex : p.exists' = true) (hsuf : lower p.suffix = ".pdf".data) :
    (∀ pages, o.plumberPages = .ok pages →
      convert "pdfplumber".data p o =
        .ok (joinNL ((pages.filterMap id).filter (fun t => t ≠ [])))) ∧
    (∀ e, o.plumberPages = .error e →
      convert "pdfplumber".data p o =
        .error (.extractionFailed ("pdfplumber extraction failed: ".data ++ e))) := by
  constructor
  · intro pages hB
    simp [convert, hex, hsuf, extract_with_pdfplumber, hB, truthy_filterMap]
  · intro e hB; simp [convert, hex, hsuf, extract_with_pdfplumber, hB]

/-- Witness for C6 at concrete inputs: four pages of which one is `None`
and one empty (both excluded), and a raising backend. -/
theorem convert_pdfplumber_spec_witness :
    convert "pdfplumber".data pW oGood = .ok (joinNL ["x".data, "y".data]) ∧
    convert "pdfplumber".data pW oBothErr =
      .error (.extractionFailed ("pdfplumber extraction failed: ".data ++ "bad".data)) := by
  refine ⟨?_, (convert_pdfplumber_spec pW oBothErr rfl (by decide)).2 "bad".data rfl⟩
  have h := (convert_pdfplumber_spec pW oGood rfl (by decide)).1
    [some "x".data, none, some "".data, some "y".data] rfl
  simpa using h

/-- A report entry's status is `'error'` exactly when it is not
`'success'`. -/
theorem isError_eq_not_isSuccess (e : BatchEntry) : e.isError = !e.isSuccess := by
  cases e <;> rfl

/-- On any report, the success and error counts add up to the report
size. -/
theorem success_count_add_error_count (l : List (Str × BatchEntry)) :
    success_count l + error_count l = l.length := by
  induction l with
  | nil => rfl
  | cons hd tl ih =>
      simp only [success_count, error_count, List.filter_cons,
        isError_eq_not_isSuccess] at ih ⊢
      cases h : hd.2.isSuccess <;> simp [h] <;> omega

/-- Inserting a fresh key into the dict appends it at the end. -/
theorem dictInsert_keys_of_fresh (k : Str) (v : BatchEntry)
    (l : List (Str × BatchEntry)) (h : k ∉ l.map Prod.fst) :
    (dictInsert k v l).map Prod.fst = l.map Prod.fst ++ [k] := by
  induction l with
  | nil => rfl
  | cons hd tl ih =>
      simp only [List.map_cons, List.mem_cons] at h
      push_neg at h
      simp [dictInsert, Ne.symm h.1, ih h.2]

/-- Each loop iteration of `batch_convert` updates the report at exactly
the processed path's key, whatever the conversion outcome. -/
theorem batchStep_fst (method : Str) (oracle : PPath → PdfOracle)
    (output_dir : Option Str)
    (acc : List (Str × BatchEntry) × List (Str × Str)) (q : PPath) :
    ∃ v, (batchStep method oracle output_dir acc q).1 = dictInsert q.str v acc.1 := by
  unfold batchStep
  cases convert method q (oracle q) with
  | ok text => cases output_dir <;> exact ⟨_, rfl⟩
  | error e => exact ⟨_, rfl⟩

/-- The keys of the report built by `batch_convert`'s loop are the input
paths in input order, appended to the accumulator's keys, provided the
paths are fresh and mutually distinct. -/
theorem batch_keys_aux (method : Str) (oracle : PPath → PdfOracle)
    (output_dir : Option Str) :
    ∀ (paths : List PPath) (acc : List (Str × BatchEntry) × List (Str × Str)),
      (paths.map PPath.str).Nodup →
      (∀ q ∈ paths, q.str ∉ acc.1.map Prod.fst) →
      (paths.foldl (batchStep method oracle output_dir) acc).1.map Prod.fst =
        acc.1.map Prod.fst ++ paths.map PPath.str
  | [], acc, _, _ => by simp
  | hd :: tl, acc, hnd, hfresh => by
      obtain ⟨v, hv⟩ := batchStep_fst method oracle output_dir acc hd
      have hkeys : (batchStep method oracle output_dir acc hd).1.map Prod.fst =
          acc.1.map Prod.fst ++ [hd.str] := by
        rw [hv]
        exact dictInsert_keys_of_fresh _ _ _ (hfresh hd (List.mem_cons_self _ _))
      simp only [List.map_cons, List.nodup_cons] at hnd
      have hfresh' : ∀ q ∈ tl,
          q.str ∉ (batchStep method oracle output_dir acc hd).1.map Prod.fst := by
        intro q hq
        rw [hkeys]
        simp only [List.mem_append, List.mem_singleton]
        push_neg
        refine ⟨hfresh q (List.mem_cons_of_mem _ hq), fun hqe => ?_⟩
        exact hnd.1 (hqe ▸ List.mem_map.mpr ⟨q, hq, rfl⟩)
      have ih := batch_keys_aux method oracle output_dir tl
        (batchStep method oracle output_dir acc hd) hnd.2 hfresh'
      simp only [List.foldl_cons]
      rw [ih, hkeys]
      simp

/-- C7 as stated is false: `batch_convert` keys its report dict by
`str(path)`, so a list containing the same path twice yields one report
entry, not two. -/
theorem batch_report_size_cex :
    (batch_convert "auto".data (fun _ => oBerr) [pW, pW] none).1.length = 1 ∧
    ¬ ((batch_convert "auto".data (fun _ => oBerr) [pW, pW] none).1.length = 2) := by
  decide

/-- C7 amended: for input paths with pairwise-distinct string forms, the
report's keys are exactly the input paths in input enumeration order (so
a failure on one path never prevents an entry for the later ones), the
report has exactly N entries, each entry is marked success or error, and
the success count plus the error count equals N. -/
theorem batch_report_complete (method : Str) (oracle : PPath → PdfOracle)
    (paths : List PPath) (output_dir : Option Str)
    (hnd : (paths.map PPath.str).Nodup) :
    (batch_convert method oracle paths output_dir).1.map Prod.fst =
      paths.map PPath.str ∧
    (batch_convert method oracle paths output_dir).1.length = paths.length ∧
    (∀ r ∈ (batch_convert method oracle paths output_dir).1,
      r.2.isSuccess = true ∨ r.2.isError = true) ∧
    success_count (batch_convert method oracle paths output_dir).1 +
      error_count (batch_convert method oracle paths output_dir).1 =
        paths.length := by
  have hkeys := batch_keys_aux method oracle output_dir paths ([], []) hnd
    (by simp)
  simp only [List.map_nil, List.nil_append] at hkeys
  have hlen : (batch_convert method oracle paths output_dir).1.length =
      paths.length := by
    have := congrArg List.length hkeys
    simpa [batch_convert] using this
  refine ⟨hkeys, hlen, fun r _ => ?_, ?_⟩
  · cases hr : r.2 <;> simp [BatchEntry.isSuccess, BatchEntry.isError]
  · rw [success_count_add_error_count, hlen]

/-- Witness for the amended C7: three distinct paths of which the first
converts and the other two fail the precondition checks; the report has
three entries in order with one success and two errors. -/
theorem batch_report_complete_witness :
    (batch_convert "auto".data (fun _ => oBerr) [pW, pTxt, pMissing] none).1.map
      Prod.fst = [pW, pTxt, pMissing].map PPath.str ∧
    (batch_convert "auto".data (fun _ => oBerr) [pW, pTxt, pMissing] none).1.length =
      [pW, pTxt, pMissing].length ∧
    (∀ r ∈ (batch_convert "auto".data (fun _ => oBerr) [pW, pTxt, pMissing] none).1,
      r.2.isSuccess = true ∨ r.2.isError = true) ∧
    success_count
        (batch_convert "auto".data (fun _ => oBerr) [pW, pTxt, pMissing] none).1 +
      error_count
        (batch_convert "auto".data (fun _ => oBerr) [pW, pTxt, pMissing] none).1 =
      [pW, pTxt, pMissing].length :=
  batch_report_complete "auto".data (fun _ => oBerr) [pW, pTxt, pMissing] none
    (by decide)

/-- An existing directory. -/
def pDir : PPath := ⟨"docs".data, "docs".data, [], true, false, true⟩

/-- An existing path that is neither a regular file nor a directory. -/
def pOdd : PPath := ⟨"weird".data, "weird".data, [], true, false, false⟩

/-- C8 as stated is false: on a nonexistent input path the
`click.Path(exists=True)` argument validation fails before `main`'s body
runs and the process exits with click's usage-error code 2, not 1. -/
theorem main_exit_one_on_missing_cex :
    (main_run pMissing none "auto".data [] (fun _ => oBerr)).1 = 2 ∧
    ¬ ((main_run pMissing none "auto".data [] (fun _ => oBerr)).1 = 1) := by decide

/-- C8 amended: the CLI exits 2 on a nonexistent input path (click's
usage error from `Path(exists=True)`, raised before `main`'s body runs);
for existing paths it exits 0 on a successful single-file conversion, 0
in directory mode whether PDFs are found or not and regardless of
per-file failures (the oracle and file list are universally quantified),
1 on a single-file conversion error, and 1 on a path that is neither a
regular file nor a directory. -/
theorem main_exit_codes (input_path : PPath) (output : Option Str) (method : Str)
    (pdfFiles : List PPath) (oracle : PPath → PdfOracle) :
    (input_path.exists' = false →
      (main_run input_path output method pdfFiles oracle).1 = 2) ∧
    (input_path.exists' = true → input_path.isFile = true →
      ∀ t, convert method input_path (oracle input_path) = .ok t →
        (main_run input_path output method pdfFiles oracle).1 = 0) ∧
    (input_path.exists' = true → input_path.isFile = true →
      ∀ e, convert method input_path (oracle input_path) = .error e →
        (main_run input_path output method pdfFiles oracle).1 = 1) ∧
    (input_path.exists' = true → input_path.isFile = false →
      input_path.isDir = true → pdfFiles = [] →
        (main_run input_path output method pdfFiles oracle).1 = 0) ∧
    (input_path.exists' = true → input_path.isFile = false →
      input_path.isDir = true →
        (main_run input_path output method pdfFiles oracle).1 = 0) ∧
    (input_path.exists' = true → input_path.isFile = false →
      input_path.isDir = false →
        (main_run input_path output method pdfFiles oracle).1 = 1) := by
  refine ⟨fun hx => ?_, fun hx hf t ht => ?_, fun hx hf e he => ?_,
    fun hx hf hd hn => ?_, fun hx hf hd => ?_, fun hx hf hd => ?_⟩
  · simp [main_run, hx]
  · simp [main_run, hx, hf, ht]
  · simp [main_run, hx, hf, he]
  · simp [main_run, hx, hf, hd, hn]
  · by_cases hn : pdfFiles = [] <;> simp [main_run, hx, hf, hd, hn]
  · simp [main_run, hx, hf, hd]

/-- Witness for the amended C8: a nonexistent path exits 2, a successful
single file exits 0, a failing single file exits 1, a directory with no
PDFs exits 0, a directory whose one PDF fails both backends still exits
0, and an existing path that is neither file nor directory exits 1. -/
theorem main_exit_codes_witness :
    (main_run pMissing none "auto".data [] (fun _ => oBerr)).1 = 2 ∧
    (main_run pW none "auto".data [] (fun _ => oBerr)).1 = 0 ∧
    (main_run pW none "auto".data [] (fun _ => oBothErr)).1 = 1 ∧
    (main_run pDir none "auto".data [] (fun _ => oBerr)).1 = 0 ∧
    (main_run pDir none "auto".data [pW] (fun _ => oBothErr)).1 = 0 ∧
    (main_run pOdd none "auto".data [] (fun _ => oBerr)).1 = 1 :=
  ⟨(main_exit_codes pMissing none "auto".data [] (fun _ => oBerr)).1 rfl,
   (main_exit_codes pW none "auto".data [] (fun _ => oBerr)).2.1 rfl rfl
      "hello".data (by decide),
   (main_exit_codes pW none "auto".data [] (fun _ => oBothErr)).2.2.1 rfl rfl
      (.extractionFailed ("PyPDF2 extraction failed: boom".data)) (by decide),
   (main_exit_codes pDir none "auto".data [] (fun _ => oBerr)).2.2.2.1 rfl rfl
      rfl rfl,
   (main_exit_codes pDir none "auto".data [pW] (fun _ => oBothErr)).2.2.2.2.1
      rfl rfl rfl,
   (main_exit_codes pOdd none "auto".data [] (fun _ => oBerr)).2.2.2.2.2 rfl
      rfl rfl⟩

/-- C9: `PDFConverter` never rejects a method string: every method other
than `'pypdf2'` and `'pdfplumber'` takes the `else` branch of `convert`
and behaves exactly as `'auto'`, with identical results and backend
invocation counts. -/
theorem unknown_method_selects_auto (m : Str) (p : PPath) (o : PdfOracle)
    (h1 : m ≠ "pypdf2".data) (h2 : m ≠ "pdfplumber".data) :
    convert m p o = convert "auto".data p o ∧
    convertCount m p o = convertCount "auto".data p o := by
  constructor <;> simp [convert, convertCount, h1, h2]

/-- Witness for C9 at the arbitrary method string `'fancy'`. -/
theorem unknown_method_selects_auto_witness :
    convert "fancy".data pW oGood = convert "auto".data pW oGood ∧
    convertCount "fancy".data pW oGood = convertCount "auto".data pW oGood :=
  unknown_method_selects_auto "fancy".data pW oGood (by decide) (by decide)

/-- C10: in batch mode with an output directory, outputs are named
`<output_dir>/<stem>.txt` from the stem alone; two successfully converted
inputs with equal stems but different paths map to the same output file,
the later write overwrites the earlier one, and the report still holds a
distinct success entry per input, both naming that one output path. -/
theorem batch_stem_collision_overwrites (method : Str) (oracle : PPath → PdfOracle)
    (p1 p2 : PPath) (d t1 t2 : Str)
    (hstem : p1.stem = p2.stem) (hstr : p1.str ≠ p2.str)
    (h1 : convert method p1 (oracle p1) = .ok t1)
    (h2 : convert method p2 (oracle p2) = .ok t2) :
    (batch_convert method oracle [p1, p2] (some d)).1 =
      [(p1.str, .successOutput (d ++ "/".data ++ p1.stem ++ ".txt".data)),
       (p2.str, .successOutput (d ++ "/".data ++ p1.stem ++ ".txt".data))] ∧
    (batch_convert method oracle [p1, p2] (some d)).2 =
      [(d ++ "/".data ++ p1.stem ++ ".txt".data, t1),
       (d ++ "/".data ++ p1.stem ++ ".txt".data, t2)] ∧
    finalContent (batch_convert method oracle [p1, p2] (some d)).2
      (d ++ "/".data ++ p1.stem ++ ".txt".data) = some t2 := by
  have e1 : batchStep method oracle (some d) ([], []) p1 =
      ([(p1.str, .successOutput (d ++ "/".data ++ p1.stem ++ ".txt".data))],
       [(d ++ "/".data ++ p1.stem ++ ".txt".data, t1)]) := by
    simp [batchStep, h1, dictInsert]
  have e2 : batchStep method oracle (some d)
      ([(p1.str, .successOutput (d ++ "/".data ++ p1.stem ++ ".txt".data))],
       [(d ++ "/".data ++ p1.stem ++ ".txt".data, t1)]) p2 =
      ([(p1.str, .successOutput (d ++ "/".data ++ p1.stem ++ ".txt".data)),
        (p2.str, .successOutput (d ++ "/".data ++ p1.stem ++ ".txt".data))],
       [(d ++ "/".data ++ p1.stem ++ ".txt".data, t1),
        (d ++ "/".data ++ p1.stem ++ ".txt".data, t2)]) := by
    simp [batchStep, h2, dictInsert, hstr, hstem]
  have hb : batch_convert method oracle [p1, p2] (some d) =
      ([(p1.str, .successOutput (d ++ "/".data ++ p1.stem ++ ".txt".data)),
        (p2.str, .successOutput (d ++ "/".data ++ p1.stem ++ ".txt".data))],
       [(d ++ "/".data ++ p1.stem ++ ".txt".data, t1),
        (d ++ "/".data ++ p1.stem ++ ".txt".data, t2)]) := by
    simp only [batch_convert, List.foldl_cons, List.foldl_nil, e1, e2]
  refine ⟨by rw [hb], by rw [hb], ?_⟩
  rw [hb]
  simp [finalContent]

/-- A PDF in one subdirectory. -/
def pDup1 : PPath := ⟨"x/r.pdf".data, "r".data, ".pdf".data, true, true, false⟩

/-- A PDF with the same stem in another subdirectory. -/
def pDup2 : PPath := ⟨"y/r.pdf".data, "r".data, ".pdf".data, true, true, false⟩

/-- An oracle giving the two same-stem PDFs different contents. -/
def oDup : PPath → PdfOracle :=
  fun q => if q.str = pDup1.str then oBerr else oGood

/-- Witness for C10: two PDFs named `r.pdf` in different directories,
converting to different texts; both report entries name `out/r.txt` and
the file ends up holding the second text. -/
theorem batch_stem_collision_overwrites_witness :
    (batch_convert "auto".data oDup [pDup1, pDup2] (some "out".data)).1 =
      [(pDup1.str, .successOutput ("out".data ++ "/".data ++ pDup1.stem ++ ".txt".data)),
       (pDup2.str, .successOutput ("out".data ++ "/".data ++ pDup1.stem ++ ".txt".data))] ∧
    (batch_convert "auto".data oDup [pDup1, pDup2] (some "out".data)).2 =
      [("out".data ++ "/".data ++ pDup1.stem ++ ".txt".data, "hello".data),
       ("out".data ++ "/".data ++ pDup1.stem ++ ".txt".data, "x\ny".data)] ∧
    finalContent (batch_convert "auto".data oDup [pDup1, pDup2] (some "out".data)).2
      ("out".data ++ "/".data ++ pDup1.stem ++ ".txt".data) = some "x\ny".data :=
  batch_stem_collision_overwrites "auto".data oDup pDup1 pDup2 "out".data
    "hello".data "x\ny".data rfl (by decide) (by decide) (by decide)

end PDF2Text
